import Mathlib

/-!
# Verification of the HypeAuto redemption engine against its specification

Shallow embedding of `src/redeemer.py` (plus the pieces of `src/models.py` and
`src/config.py` it uses).  External effects (Playwright calls, intercepted HTTP
responses, the clock) are modelled by an explicit `World` record: each awaited
operation of `_do_redeem` becomes a field holding either the value the site
returned (`Except.ok`) or the exception it raised (`Except.error msg`).
Pure Python helpers become Lean functions with the same names.
-/

namespace HypeAuto

/-- Embeds `models.ErrorType` (src/models.py lines 14-21). -/
inductive ErrorType where
  | none
  | invalid_id
  | pin_expired
  | pin_already_used
  | page_error
  | timeout
  | unknown
deriving DecidableEq, Repr

/-- Python's substring test `needle in hay`, on exploded strings. -/
def listInfix (needle : List Char) : List Char → Bool
  | [] => needle.isEmpty
  | c :: cs => needle.isPrefixOf (c :: cs) || listInfix needle cs

/-- Python `needle in hay` for strings (substring containment). -/
def strContains (hay needle : String) : Bool :=
  listInfix needle.toList hay.toList

/-- Python `str.lower()` (ASCII range, which covers every word the code
compares against). -/
def strLower (s : String) : String :=
  ⟨s.data.map Char.toLower⟩

/-- Embeds `RedeemResult` (src/redeemer.py lines 11-24).  `redeemed_at` is set from the
ambient clock (`now`) exactly when `success` holds, mirroring
`datetime.now(timezone.utc).isoformat() if success else ""`. -/
structure RedeemResult where
  success : Bool
  pin : String
  error : ErrorType
  error_message : String
  product_name : String
  nickname : String
  diamonds : Nat
  return_pin : Bool
  redeem_duration_ms : Nat
  redeemed_at : String
deriving DecidableEq, Repr

/-- Embeds `RedeemResult.__init__` (lines 12-24): `now` is what
`datetime.now(timezone.utc).isoformat()` would render. -/
def RedeemResult.make (success : Bool) (pin : String) (error : ErrorType)
    (error_message : String) (product_name : String) (nickname : String)
    (diamonds : Nat) (return_pin : Bool) (now : String) : RedeemResult :=
  { success := success, pin := pin, error := error, error_message := error_message,
    product_name := product_name, nickname := nickname, diamonds := diamonds,
    return_pin := return_pin, redeem_duration_ms := 0,
    redeemed_at := if success then now else "" }

/-- Embeds `RedeemResult.fail` (lines 26-32): success is False, so `redeemed_at = ""`
whatever the clock says, nickname and diamonds keep their defaults. -/
def RedeemResult.fail (pin : String) (error : ErrorType) (message : String)
    (return_pin : Bool) (product_name : String := "") : RedeemResult :=
  RedeemResult.make false pin error message product_name "" 0 return_pin ""

/-- Embeds `BLOCKED_PATTERNS` (lines 38-47). -/
def BLOCKED_PATTERNS : List String :=
  ["clarity.ms", "google-analytics", "googletagmanager",
   "/Content/images/covers/", "/Content/favicon/",
   ".woff", ".woff2", ".ttf", "ubistatic2-a.akamaihd.net", "goadopt.io"]

/-- Embeds `ALLOW_PATTERNS` (lines 50-55). -/
def ALLOW_PATTERNS : List String :=
  ["recaptcha", "gstatic.com", "google.com/recaptcha", "hype.games"]

/-- Outcome of the per-request routing policy: `route.continue_()` or
`route.abort()`. -/
inductive RouteAction where
  | cont
  | abort
deriving DecidableEq, Repr

/-- Embeds `block_resources` (lines 156-168): allow-list first, then block-list, then
resource-type filter, else continue. -/
def block_resources (url : String) (resource_type : String) : RouteAction :=
  if ALLOW_PATTERNS.any (fun p => strContains url p) then .cont
  else if BLOCKED_PATTERNS.any (fun p => strContains url p) then .abort
  else if resource_type = "image" ∨ resource_type = "font" ∨ resource_type = "media" then .abort
  else .cont

/-- Numeric value of a run of decimal digits, as Python `int` reads it. -/
def digitsVal (ds : List Char) : Nat :=
  ds.foldl (fun n c => n * 10 + (c.toNat - '0'.toNat)) 0

/-- Case-insensitive literal match at the head of `cs` (the regex literal
alternatives are matched with `re.IGNORECASE`). -/
def lowerStartsWith : List Char → List Char → Bool
  | [], _ => true
  | _ :: _, [] => false
  | l :: ls, c :: cs => (c.toLower == l) && lowerStartsWith ls cs

/-- One anchored attempt of `(\d+)\s*(?:diamantes|diamonds)` at the head of
`cs`: a maximal digit run (greedy `\d+`; backtracking cannot help because a
digit is neither whitespace nor `d`), optional whitespace, then either
currency-unit word, case-insensitively. -/
def diamondMatchAt (cs : List Char) : Option Nat :=
  let ds := cs.takeWhile Char.isDigit
  if ds.isEmpty then none
  else
    let rest := (cs.dropWhile Char.isDigit).dropWhile Char.isWhitespace
    if lowerStartsWith "diamantes".toList rest || lowerStartsWith "diamonds".toList rest then
      some (digitsVal ds)
    else none

/-- Embeds `re.search` semantics: leftmost successful anchored attempt wins. -/
def diamondSearch : List Char → Option Nat
  | [] => none
  | c :: cs =>
    match diamondMatchAt (c :: cs) with
    | some n => some n
    | none => diamondSearch cs

/-- Embeds `parse_diamonds` (lines 58-62) with `DIAMOND_PATTERN` (line 35):
first match of `(\d+)\s*(?:diamantes|diamonds)`, case-insensitive, else 0. -/
def parse_diamonds (product_name : String) : Nat :=
  (diamondSearch product_name.toList).getD 0

/-- Intercepted `/validate` response (lines 244-254): HTTP status, and the
result of the later `validate_resp.text()` call (which may itself raise and
then be swallowed by the surrounding `except: pass`). -/
structure ValidateResp where
  status : Nat
  body : Except String String
deriving Repr

/-- JSON payload of one intercepted `validate/account` response
(lines 350-358): `Success`, and the optional `Username` / `Message` keys read
with `dict.get` defaults. -/
structure VerifyResp where
  success : Bool
  username : Option String
  message : Option String
deriving Repr

/-- The environment one call to `_do_redeem` runs against: every awaited
Playwright operation, in program order.  `Except.error msg` means the await
raised an exception whose `str` is `msg`.  The `asyncio.sleep`, the ignored
`try/except pass` wait on `#GameAccountId` (lines 283-286), the 300 ms
`wait_for_timeout` and the best-effort screenshot (lines 428-431) have no
observable effect and are not modelled. -/
structure World where
  /-- Embeds `_get_page()` (line 225). -/
  getPage : Except String Unit
  /-- first `pin_input.wait_for` (line 231). -/
  waitPin1 : Except String Unit
  /-- recovery `page.goto` (line 234). -/
  gotoBase : Except String Unit
  /-- second `pin_input.wait_for` (line 235). -/
  waitPin2 : Except String Unit
  /-- Embeds `pin_input.fill(pin)` (line 237). -/
  fillPin : Except String Unit
  /-- enable `#btn-validate` (line 240). -/
  enableValidate : Except String Unit
  /-- Embeds `/validate` intercept + click (lines 244-249). -/
  validate : Except String ValidateResp
  /-- Embeds `wait_for_selector(".card.back .body")` (line 260). -/
  cardFlip : Except String Unit
  /-- inline-error query (lines 262-264): `none` = element absent, `some t` =
  element present with stripped text `t`. -/
  errorEl : Except String (Option String)
  /-- product-name query (lines 273-279), errors swallowed. -/
  productEl : Except String (Option String)
  /-- batched form-fill `page.evaluate` (lines 289-321). -/
  fillForm : Except String String
  /-- Embeds `select_option("#NationalityAlphaCode")` (line 329). -/
  selectNat : Except String Unit
  /-- verify attempt number `i` (lines 337-366): everything inside the loop's
  `try` — re-enabling the button, the intercept, `.json()` — collapsed into one
  result per attempt. -/
  verify : Nat → Except String VerifyResp
  /-- Embeds `wait_for_selector("#btn-redeem")` (line 385). -/
  waitRedeemBtn : Except String Unit
  /-- enable `#btn-redeem` (line 391). -/
  enableRedeem : Except String Unit
  /-- Embeds `confirm` intercept + click (lines 393-399): the response status. -/
  confirm : Except String Int
  /-- Embeds `document.body.innerText` (line 414). -/
  bodyText : Except String String
  /-- what `datetime.now(timezone.utc).isoformat()` renders. -/
  now : String

/-- Step 1's visibility wait with re-navigation recovery (lines 229-235):
a failed first wait triggers `goto` + a second wait, whose errors propagate. -/
def stepPinVisible (w : World) : Except String Unit :=
  match w.waitPin1 with
  | .ok _ => .ok ()
  | .error _ =>
    match w.gotoBase with
    | .error e => .error e
    | .ok _ => w.waitPin2

/-- The `/validate` intercept block (lines 243-256).  Everything is inside
`try/except: pass`, so no exception escapes; `some r` is the early
`return RedeemResult.fail` on an error status whose body read succeeded. -/
def stepValidate (w : World) (pin : String) : Option RedeemResult :=
  match w.validate with
  | .error _ => none
  | .ok resp =>
    if 400 ≤ resp.status then
      match resp.body with
      | .error _ => none
      | .ok _ =>
        some (RedeemResult.fail pin .pin_expired
          ("Error validando PIN: HTTP " ++ toString resp.status) true)
    else none

/-- words signalling an expired PIN (line 265). -/
def expiredWords : List String := ["expirado", "expired", "vencido"]

/-- words signalling an already-redeemed PIN (line 267). -/
def usedWords : List String := ["canjeado", "redeemed", "usado", "used"]

/-- Card-flip timeout handling (lines 262-270): classify the inline error
element's text, or report a retry-safe timeout when no element exists. -/
def classifyCardFlip (pin : String) (errText : Option String) : RedeemResult :=
  match errText with
  | some error_text =>
    if expiredWords.any (fun word => strContains (strLower error_text) word) then
      RedeemResult.fail pin .pin_expired error_text false
    else if usedWords.any (fun word => strContains (strLower error_text) word) then
      RedeemResult.fail pin .pin_already_used error_text false
    else
      RedeemResult.fail pin .pin_expired error_text false
  | none =>
    RedeemResult.fail pin .timeout "Timeout esperando validación del PIN" true

/-- Product-name extraction (lines 272-279): best effort, errors and absence
leave it empty. -/
def stepProduct (w : World) : String :=
  match w.productEl with
  | .ok (some t) => t
  | _ => ""

/-- Embeds `response_data.get("Message", "Error verificando ID")` (line 358). -/
def verifyMsg (r : VerifyResp) : String :=
  r.message.getD "Error verificando ID"

/-- the transient-error test of line 360:
`"interno" in error_msg.lower() or "internal" in error_msg.lower()`. -/
def isInternalMsg (m : String) : Bool :=
  strContains (strLower m) "interno" || strContains (strLower m) "internal"

/-- Exit taken by the verify loop of lines 335-377. -/
inductive VerifyOutcome where
  | ok (nickname : String)
  | failInvalid (msg : String)
  | failTimeout (msg : String)
  | exhausted
deriving DecidableEq, Repr

/-- The verify `for attempt in range(3)` loop body (lines 336-372), running the
attempts listed: success breaks out with the nickname; a failure message that
matches the internal-error pattern continues; any other failure message is a
terminal `INVALID_ID`; an exception continues unless `attempt == 2`, which is a
terminal `TIMEOUT`; an empty list is the loop falling through to line 374. -/
def verifyAttempts (env : Nat → Except String VerifyResp) : List Nat → VerifyOutcome
  | [] => .exhausted
  | a :: rest =>
    match env a with
    | .error e =>
      if a == 2 then .failTimeout ("Timeout verificando ID: " ++ e)
      else verifyAttempts env rest
    | .ok r =>
      if r.success then .ok (r.username.getD "")
      else
        if isInternalMsg (verifyMsg r) then verifyAttempts env rest
        else .failInvalid (verifyMsg r)

/-- PASO 3 (lines 335-377): the loop over `range(3)`. -/
def verifyStep (env : Nat → Except String VerifyResp) : VerifyOutcome :=
  verifyAttempts env [0, 1, 2]

/-- keywords scanned in the DOM fallback (lines 416-418). -/
def successKeywords : List String :=
  ["exitoso", "sucesso", "success", "entregado", "delivered",
   "créditos", "creditos", "diamantes", "completado", "realizado"]

/-- PASO 5, result classification (lines 403-435): status 200 wins, else the
body text is scanned for success keywords (the `evaluate` may raise and then
propagates), else the ambiguous `UNKNOWN` failure. -/
def classifyResult (w : World) (pin product_name nickname : String) :
    Except String RedeemResult :=
  let confirm_status : Int :=
    match w.confirm with
    | .ok s => s
    | .error _ => -1
  if confirm_status = 200 then
    .ok (RedeemResult.make true pin .none "" product_name nickname
          (parse_diamonds product_name) false w.now)
  else
    match w.bodyText with
    | .error e => .error e
    | .ok page_text =>
      if successKeywords.any (fun word => strContains (strLower page_text) word) then
        .ok (RedeemResult.make true pin .none "" product_name nickname
              (parse_diamonds product_name) false w.now)
      else
        .ok (RedeemResult.fail pin .unknown
              "No se pudo confirmar. PIN posiblemente consumido." false product_name)

/-- The body of `_do_redeem` (lines 218-435) up to, but not including, the
top-level `except`: `.error e` is an exception escaping to that handler. -/
def doRedeemBody (w : World) (pin : String) : Except String RedeemResult :=
  match w.getPage with
  | .error e => .error e
  | .ok _ =>
  match stepPinVisible w with
  | .error e => .error e
  | .ok _ =>
  match w.fillPin with
  | .error e => .error e
  | .ok _ =>
  match w.enableValidate with
  | .error e => .error e
  | .ok _ =>
  match stepValidate w pin with
  | some r => .ok r
  | none =>
  match w.cardFlip with
  | .error _ =>
    (match w.errorEl with
     | .error e => .error e
     | .ok eo => .ok (classifyCardFlip pin eo))
  | .ok _ =>
  let product_name := stepProduct w
  match w.fillForm with
  | .error e => .error e
  | .ok fill_ok =>
  if fill_ok = "NO_GAME_FIELD" then
    .ok (RedeemResult.fail pin .page_error "Campo GameAccountId no encontrado"
          true product_name)
  else
  match w.selectNat with
  | .error e => .error e
  | .ok _ =>
  match verifyStep w.verify with
  | .failInvalid msg => .ok (RedeemResult.fail pin .invalid_id msg true product_name)
  | .failTimeout msg => .ok (RedeemResult.fail pin .timeout msg true product_name)
  | .exhausted =>
    .ok (RedeemResult.fail pin .invalid_id "Error verificando ID tras 3 intentos"
          true product_name)
  | .ok nickname =>
  match w.waitRedeemBtn with
  | .error _ =>
    .ok (RedeemResult.fail pin .page_error "Botón Canjear no apareció" true product_name)
  | .ok _ =>
  match w.enableRedeem with
  | .error e => .error e
  | .ok _ =>
  classifyResult w pin product_name nickname

/-- Embeds `_do_redeem` with its top-level handler (lines 437-442): any exception is
classified as `TIMEOUT` when its message contains "timeout" (case-insensitive),
else `PAGE_ERROR`, both with `return_pin = True`. -/
def do_redeem (w : World) (pin : String) : RedeemResult :=
  match doRedeemBody w pin with
  | .ok r => r
  | .error e =>
    if strContains (strLower e) "timeout" then RedeemResult.fail pin .timeout e true
    else RedeemResult.fail pin .page_error e true

/-- Embeds `redeem_pin` (lines 210-216): runs `_do_redeem` under the semaphore and
stamps the measured duration on the result. -/
def redeem_pin (w : World) (pin : String) (duration_ms : Nat) : RedeemResult :=
  { do_redeem w pin with redeem_duration_ms := duration_ms }

/-- Embeds `self._total_slots = config.BROWSER_COUNT * config.MAX_CONCURRENT`
(line 71): the pool's capacity, hosts times per-host factor. -/
def totalSlots (browser_count max_concurrent : Nat) : Nat :=
  browser_count * max_concurrent

/-- Occupancy of the page pool: `idle` is `self._page_pool.qsize()`, `leased`
counts pages currently held by in-flight redemptions. -/
structure PoolState where
  idle : Nat
  leased : Nat
deriving DecidableEq, Repr

/-- Embeds `_get_page` (lines 185-190): pop from the queue when non-empty
(`get_nowait`), otherwise synchronously build a fresh warm page.  The boolean
records whether the page came from the pool.  It always returns — there is no
blocking wait. -/
def getPage (s : PoolState) : PoolState × Bool :=
  if 0 < s.idle then (⟨s.idle - 1, s.leased + 1⟩, true)
  else (⟨s.idle, s.leased + 1⟩, false)

/-- Embeds `_return_page` (lines 192-208): when the queue is below capacity, restore
(re-navigate + clear cookies) and enqueue; a restoration failure
(`restore_fails`) falls into the `except` branch which closes the page; at
capacity the page is closed outright. -/
def returnPage (cap : Nat) (s : PoolState) (restore_fails : Bool) : PoolState :=
  if s.idle < cap then
    if restore_fails then ⟨s.idle, s.leased - 1⟩
    else ⟨s.idle + 1, s.leased - 1⟩
  else ⟨s.idle, s.leased - 1⟩

/-- Atomic pool transitions.  An acquire happens inside the semaphore scope of
`redeem_pin` (line 211), so fewer than `cap` redemptions — hence leased pages —
are in flight when it fires; a release returns a page some redemption held. -/
inductive PoolStep (cap : Nat) : PoolState → PoolState → Prop
  | acquire (s : PoolState) : s.leased < cap → PoolStep cap s (getPage s).1
  | release (s : PoolState) (restore_fails : Bool) : 0 < s.leased →
      PoolStep cap s (returnPage cap s restore_fails)

/-- Engine state touched by `initialize` (lines 93-127): the `_initialized`
flag, the launched browsers, and the warm-page queue.  The semaphore is
created in `__init__` and never touched by `initialize`, so a permit count
field stands for it. -/
structure EngineState where
  initialized : Bool
  browsers : List Nat
  pagePool : List Nat
  semaphorePermits : Nat
deriving DecidableEq, Repr

/-- Launch/warm-up environment for `initialize`: per-index results of
`_launch_browser` and `_make_warm_page`, gathered with
`return_exceptions=True`. -/
structure InitEnv where
  browser_count : Nat
  total_slots : Nat
  launch : Nat → Except String Nat
  warm : Nat → Except String Nat

/-- Embeds `HypeRedeemer.initialize` (lines 93-127): early return when already
initialized; launch all browsers keeping the successes; fail only when none
launched; then warm `total_slots` pages, enqueueing the successes. -/
def initEngine (env : InitEnv) (s : EngineState) : Except String EngineState :=
  if s.initialized then .ok s
  else
    let browsers := (List.range env.browser_count).filterMap
      (fun i => (env.launch i).toOption)
    if browsers.isEmpty then .error "No se pudo lanzar ningún browser"
    else
      let pages := (List.range env.total_slots).filterMap
        (fun i => (env.warm i).toOption)
      .ok { s with initialized := true, browsers := browsers,
                   pagePool := s.pagePool ++ pages }

/-- A `World` in which every awaited operation succeeds benignly: used as the
base point for integration scenarios, with individual fields overridden. -/
def baseWorld : World :=
  { getPage := .ok (), waitPin1 := .ok (), gotoBase := .ok (), waitPin2 := .ok (),
    fillPin := .ok (), enableValidate := .ok (),
    validate := .ok ⟨200, .ok ""⟩,
    cardFlip := .ok (), errorEl := .ok none,
    productEl := .ok none,
    fillForm := .ok "OK", selectNat := .ok (),
    verify := fun _ => .ok ⟨true, some "Jugador", none⟩,
    waitRedeemBtn := .ok (), enableRedeem := .ok (),
    confirm := .ok 200, bodyText := .ok "",
    now := "2026-02-11T00:00:00+00:00" }

end HypeAuto

namespace HypeAuto

/-- C6: the diamond-count parser returns the integer captured by the first
case-insensitive match of a digit run followed by a currency-unit word
("diamonds"/"diamantes") and 0 when there is no match:
`parse_diamonds "5000 Diamonds" = 5000`, `parse_diamonds "Paquete especial" = 0`,
`parse_diamonds "120 diamantes extra" = 120`; the last conjunct shows the first
match winning over a later one. -/
theorem C6_parse_diamonds_spec :
    parse_diamonds "5000 Diamonds" = 5000 ∧
    parse_diamonds "Paquete especial" = 0 ∧
    parse_diamonds "120 diamantes extra" = 120 ∧
    parse_diamonds "7 DIAMONDS y luego 9 diamantes" = 7 := by
  decide

/-- C7: the traffic-filter decision follows exactly the stated precedence:
always-allow pattern → continue; else block pattern → abort; else resource
type image/font/media → abort; else continue. -/
theorem C7_traffic_filter_precedence :
    ∀ url resource_type : String,
      (ALLOW_PATTERNS.any (fun p => strContains url p) = true →
        block_resources url resource_type = .cont) ∧
      (ALLOW_PATTERNS.any (fun p => strContains url p) = false →
        BLOCKED_PATTERNS.any (fun p => strContains url p) = true →
        block_resources url resource_type = .abort) ∧
      (ALLOW_PATTERNS.any (fun p => strContains url p) = false →
        BLOCKED_PATTERNS.any (fun p => strContains url p) = false →
        (resource_type = "image" ∨ resource_type = "font" ∨ resource_type = "media") →
        block_resources url resource_type = .abort) ∧
      (ALLOW_PATTERNS.any (fun p => strContains url p) = false →
        BLOCKED_PATTERNS.any (fun p => strContains url p) = false →
        ¬(resource_type = "image" ∨ resource_type = "font" ∨ resource_type = "media") →
        block_resources url resource_type = .cont) := by
  intro url resource_type
  refine ⟨?_, ?_, ?_, ?_⟩ <;> intros <;> simp_all [block_resources]

/-- C7 witness: the reCAPTCHA script URL matches an always-allow pattern and is
let through even though it also ends in a blockable-looking path. -/
theorem C7_traffic_filter_witness :
    block_resources "https://www.google.com/recaptcha/api.js" "script" = .cont :=
  (C7_traffic_filter_precedence "https://www.google.com/recaptcha/api.js" "script").1
    (by decide)

/-- C8: calling `initialize` again after initialization completed returns
immediately with the engine state — browsers, page pool, semaphore — unchanged. -/
theorem C8_initEngine_idempotent :
    ∀ (env : InitEnv) (s : EngineState), s.initialized = true →
      initEngine env s = .ok s := by
  intro env s h
  simp [initEngine, h]

/-- C8 witness: a concrete initialized engine state is returned untouched. -/
theorem C8_initEngine_idempotent_witness :
    initEngine ⟨2, 6, fun i => .ok i, fun i => .ok i⟩
      ⟨true, [0, 1], [10, 11, 12], 6⟩ = .ok ⟨true, [0, 1], [10, 11, 12], 6⟩ :=
  C8_initEngine_idempotent ⟨2, 6, fun i => .ok i, fun i => .ok i⟩
    ⟨true, [0, 1], [10, 11, 12], 6⟩ rfl

/-- C2: on card-flip timeout — inline error text containing an expired-type
word gives `PIN_EXPIRED` with returnPin false; otherwise text containing an
already-used-type word gives `PIN_ALREADY_USED` with returnPin false; any
other inline error text gives `PIN_EXPIRED` with returnPin false; and no
inline error element at all gives `TIMEOUT` with returnPin true.  The last
conjunct ties the classifier into `_do_redeem`: a run whose card-flip wait
raises lands exactly in this classification. -/
theorem C2_card_flip_timeout_classification :
    (∀ pin t : String,
        expiredWords.any (fun word => strContains (strLower t) word) = true →
        classifyCardFlip pin (some t) = RedeemResult.fail pin .pin_expired t false) ∧
    (∀ pin t : String,
        expiredWords.any (fun word => strContains (strLower t) word) = false →
        usedWords.any (fun word => strContains (strLower t) word) = true →
        classifyCardFlip pin (some t) = RedeemResult.fail pin .pin_already_used t false) ∧
    (∀ pin t : String,
        expiredWords.any (fun word => strContains (strLower t) word) = false →
        usedWords.any (fun word => strContains (strLower t) word) = false →
        classifyCardFlip pin (some t) = RedeemResult.fail pin .pin_expired t false) ∧
    (∀ pin : String,
        classifyCardFlip pin none =
          RedeemResult.fail pin .timeout "Timeout esperando validación del PIN" true) ∧
    (∀ (pin e : String) (eo : Option String),
        do_redeem { baseWorld with cardFlip := .error e, errorEl := .ok eo } pin =
          classifyCardFlip pin eo) := by
  refine ⟨?_, ?_, ?_, ?_, ?_⟩
  · intro pin t h
    simp [classifyCardFlip, h]
  · intro pin t h1 h2
    simp [classifyCardFlip, h1, h2]
  · intro pin t h1 h2
    simp [classifyCardFlip, h1, h2]
  · intro pin
    rfl
  · intro pin e eo
    rfl

/-- C2 witness: the scenario from the spec — inline error "PIN ya fue
canjeado" classifies as an already-used PIN that must not be retried. -/
theorem C2_card_flip_witness :
    classifyCardFlip "P" (some "El PIN ya fue canjeado") =
      RedeemResult.fail "P" .pin_already_used "El PIN ya fue canjeado" false :=
  C2_card_flip_timeout_classification.2.1 "P" "El PIN ya fue canjeado"
    (by decide) (by decide)

/-- C4: any exception escaping the state-machine body is caught by the
top-level handler and converted into a structured failure — `TIMEOUT` with
returnPin true when the lowercased message contains "timeout", `PAGE_ERROR`
with returnPin true otherwise — so `redeem_pin` returns a `RedeemResult` for
every world, never a raw exception. -/
theorem C4_top_level_exception_classified :
    ∀ (w : World) (pin : String) (d : Nat) (e : String),
      doRedeemBody w pin = .error e →
      redeem_pin w pin d =
        { (if strContains (strLower e) "timeout" then
             RedeemResult.fail pin .timeout e true
           else
             RedeemResult.fail pin .page_error e true) with
          redeem_duration_ms := d } ∧
      ((redeem_pin w pin d).error = .timeout ∨ (redeem_pin w pin d).error = .page_error) ∧
      (redeem_pin w pin d).return_pin = true := by
  intro w pin d e h
  have hdo : do_redeem w pin =
      (if strContains (strLower e) "timeout" then
         RedeemResult.fail pin .timeout e true
       else
         RedeemResult.fail pin .page_error e true) := by
    unfold do_redeem
    rw [h]
  refine ⟨?_, ?_, ?_⟩
  · unfold redeem_pin
    rw [hdo]
  · unfold redeem_pin
    rw [hdo]
    split <;> simp [RedeemResult.fail, RedeemResult.make]
  · unfold redeem_pin
    rw [hdo]
    split <;> simp [RedeemResult.fail, RedeemResult.make]

/-- C4 witness: a `_get_page` crash whose message mentions a timeout comes
back as a `TIMEOUT` outcome with the duration stamped on. -/
theorem C4_top_level_witness :
    redeem_pin { baseWorld with getPage := .error "Timeout 30000ms exceeded" }
        "PIN-1" 5 =
      { RedeemResult.fail "PIN-1" .timeout "Timeout 30000ms exceeded" true with
        redeem_duration_ms := 5 } := by
  have h := (C4_top_level_exception_classified
    { baseWorld with getPage := .error "Timeout 30000ms exceeded" }
    "PIN-1" 5 "Timeout 30000ms exceeded" rfl).1
  rw [h]
  norm_num [strContains]
  decide

/-- C3: in result classification, an intercepted confirmation with HTTP
status 200 is a success with errorKind NONE and the diamond count parsed from
the product name ("5000 Diamonds" parses to 5000, a text with no match to 0);
otherwise a success keyword in the page body gives the same success; otherwise
the outcome is `UNKNOWN` with returnPin false. -/
theorem C3_result_classification :
    (∀ (w : World) (pin product_name nickname : String),
        w.confirm = .ok 200 →
        classifyResult w pin product_name nickname =
          .ok (RedeemResult.make true pin .none "" product_name nickname
                (parse_diamonds product_name) false w.now)) ∧
    parse_diamonds "5000 Diamonds" = 5000 ∧
    (∀ product_name : String, diamondSearch product_name.data = none →
        parse_diamonds product_name = 0) ∧
    (∀ (w : World) (pin product_name nickname page_text : String),
        (match w.confirm with | .ok s => s | .error _ => (-1 : Int)) ≠ 200 →
        w.bodyText = .ok page_text →
        successKeywords.any (fun word => strContains (strLower page_text) word) = true →
        classifyResult w pin product_name nickname =
          .ok (RedeemResult.make true pin .none "" product_name nickname
                (parse_diamonds product_name) false w.now)) ∧
    (∀ (w : World) (pin product_name nickname page_text : String),
        (match w.confirm with | .ok s => s | .error _ => (-1 : Int)) ≠ 200 →
        w.bodyText = .ok page_text →
        successKeywords.any (fun word => strContains (strLower page_text) word) = false →
        classifyResult w pin product_name nickname =
          .ok (RedeemResult.fail pin .unknown
                "No se pudo confirmar. PIN posiblemente consumido." false product_name)) := by
  refine ⟨?_, by decide, ?_, ?_, ?_⟩
  · intro w pin product_name nickname h
    simp [classifyResult, h]
  · intro product_name h
    simp [parse_diamonds, String.toList, h]
  · intro w pin product_name nickname page_text hs hb hkw
    simp only [classifyResult, hb]
    rw [if_neg hs]
    simp [hkw]
  · intro w pin product_name nickname page_text hs hb hkw
    simp only [classifyResult, hb]
    rw [if_neg hs]
    simp [hkw]

/-- C3 witness: the spec's scenario — confirmation status 200 with product
text "5000 Diamonds" yields success with 5000 diamonds and errorKind NONE;
and a status-500 run whose body has no success keyword is `UNKNOWN`,
returnPin false. -/
theorem C3_result_classification_witness :
    classifyResult baseWorld "P" "5000 Diamonds" "Jugador" =
      .ok (RedeemResult.make true "P" .none "" "5000 Diamonds" "Jugador" 5000
            false baseWorld.now) ∧
    classifyResult { baseWorld with confirm := .ok 500, bodyText := .ok "Ocurrió un problema" }
        "P" "5000 Diamonds" "Jugador" =
      .ok (RedeemResult.fail "P" .unknown
            "No se pudo confirmar. PIN posiblemente consumido." false "5000 Diamonds") := by
  constructor
  · have h := C3_result_classification.1 baseWorld "P" "5000 Diamonds" "Jugador" rfl
    rw [h]
    have hd : parse_diamonds "5000 Diamonds" = 5000 := by decide
    rw [hd]
  · exact C3_result_classification.2.2.2.2
      { baseWorld with confirm := .ok 500, bodyText := .ok "Ocurrió un problema" }
      "P" "5000 Diamonds" "Jugador" "Ocurrió un problema" (by decide) rfl (by decide)

/-- A verify attempt after which the loop moves on to the next attempt (when
one remains): an exception, or a failure response whose message matches the
internal-error pattern of line 360. -/
def attemptRetries : Except String VerifyResp → Prop
  | .error _ => True
  | .ok r => r.success = false ∧ isInternalMsg (verifyMsg r) = true

/-- A retrying attempt numbered below 2 just moves the loop on. -/
theorem verifyAttempts_cons_retry (env : Nat → Except String VerifyResp)
    (a : Nat) (rest : List Nat) (ha : a ≠ 2) (h : attemptRetries (env a)) :
    verifyAttempts env (a :: rest) = verifyAttempts env rest := by
  rw [verifyAttempts]
  cases he : env a with
  | error e =>
    simp [he, ha]
  | ok r =>
    rw [he] at h
    simp only [attemptRetries] at h
    simp [he, h.1, h.2]

/-- C1: the verify step performs at most 3 attempts (its outcome depends only
on attempts 0, 1, 2); a failure response whose message does not match the
internal-error pattern is terminal; two internal-error responses followed by a
success yield the nickname of the third response; exhausting the attempts
without success ends the run as `INVALID_ID` with returnPin true, or `TIMEOUT`
with returnPin true when the last attempt raised.  The final four conjuncts
replay those exits through `do_redeem`. -/
theorem C1_verify_retry_policy :
    (∀ env env' : Nat → Except String VerifyResp,
        env 0 = env' 0 → env 1 = env' 1 → env 2 = env' 2 →
        verifyStep env = verifyStep env') ∧
    (∀ (env : Nat → Except String VerifyResp) (r : VerifyResp),
        env 0 = .ok r → r.success = false → isInternalMsg (verifyMsg r) = false →
        verifyStep env = .failInvalid (verifyMsg r)) ∧
    (∀ (env : Nat → Except String VerifyResp) (r0 r1 r2 : VerifyResp) (nick : String),
        env 0 = .ok r0 → r0.success = false → isInternalMsg (verifyMsg r0) = true →
        env 1 = .ok r1 → r1.success = false → isInternalMsg (verifyMsg r1) = true →
        env 2 = .ok r2 → r2.success = true → r2.username = some nick →
        verifyStep env = .ok nick) ∧
    (∀ (env : Nat → Except String VerifyResp) (r2 : VerifyResp),
        attemptRetries (env 0) → attemptRetries (env 1) →
        env 2 = .ok r2 → r2.success = false → isInternalMsg (verifyMsg r2) = true →
        verifyStep env = .exhausted) ∧
    (∀ (env : Nat → Except String VerifyResp) (e : String),
        attemptRetries (env 0) → attemptRetries (env 1) →
        env 2 = .error e →
        verifyStep env = .failTimeout ("Timeout verificando ID: " ++ e)) ∧
    (∀ pin nick : String,
        do_redeem { baseWorld with verify := (fun i =>
            if i = 0 then Except.ok (VerifyResp.mk false none (some "Error interno del servidor"))
            else if i = 1 then Except.ok (VerifyResp.mk false none (some "internal error"))
            else Except.ok (VerifyResp.mk true (some nick) none)) } pin =
          RedeemResult.make true pin .none "" "" nick 0 false baseWorld.now) ∧
    (∀ pin : String,
        do_redeem { baseWorld with
            verify := fun _ => .ok ⟨false, none, some "ID de jugador no existe"⟩ } pin =
          RedeemResult.fail pin .invalid_id "ID de jugador no existe" true "") ∧
    (∀ pin : String,
        do_redeem { baseWorld with
            verify := fun _ => .ok ⟨false, none, some "Error interno"⟩ } pin =
          RedeemResult.fail pin .invalid_id "Error verificando ID tras 3 intentos" true "") ∧
    (∀ pin : String,
        do_redeem { baseWorld with verify := fun _ => .error "net::ERR_FAILED" } pin =
          RedeemResult.fail pin .timeout "Timeout verificando ID: net::ERR_FAILED" true "") := by
  refine ⟨?_, ?_, ?_, ?_, ?_, ?_, ?_, ?_, ?_⟩
  · intro env env' h0 h1 h2
    simp only [verifyStep, verifyAttempts, h0, h1, h2]
  · intro env r h hs hi
    simp [verifyStep, verifyAttempts, h, hs, hi]
  · intro env r0 r1 r2 nick h0 hs0 hi0 h1 hs1 hi1 h2 hs2 hu
    simp [verifyStep, verifyAttempts, h0, hs0, hi0, h1, hs1, hi1, h2, hs2, hu]
  · intro env r2 h0 h1 h2 hs2 hi2
    rw [verifyStep, verifyAttempts_cons_retry env 0 _ (by decide) h0,
        verifyAttempts_cons_retry env 1 _ (by decide) h1]
    simp [verifyAttempts, h2, hs2, hi2]
  · intro env e h0 h1 h2
    rw [verifyStep, verifyAttempts_cons_retry env 0 _ (by decide) h0,
        verifyAttempts_cons_retry env 1 _ (by decide) h1]
    simp [verifyAttempts, h2]
  · intro pin nick
    rfl
  · intro pin
    rfl
  · intro pin
    rfl
  · intro pin
    rfl

/-- C1 witness: a concrete environment answering "Error interno" twice and
then succeeding makes the verify step return the third response's nickname. -/
theorem C1_verify_retry_witness :
    verifyStep (fun i =>
        if i = 0 then .ok ⟨false, none, some "Error interno"⟩
        else if i = 1 then .ok ⟨false, none, some "Internal Error"⟩
        else .ok ⟨true, some "JugadorTres", none⟩) = .ok "JugadorTres" :=
  C1_verify_retry_policy.2.2.1 _
    ⟨false, none, some "Error interno"⟩ ⟨false, none, some "Internal Error"⟩
    ⟨true, some "JugadorTres", none⟩ "JugadorTres"
    rfl rfl (by decide) rfl rfl (by decide) rfl rfl rfl

/-- One acquire or release step keeps the occupancy bound. -/
theorem poolStep_preserves (cap : Nat) (s s' : PoolState)
    (h : PoolStep cap s s') (hinv : s.idle + s.leased ≤ cap) :
    s'.idle + s'.leased ≤ cap := by
  cases h with
  | acquire hlt =>
    by_cases hi : 0 < s.idle
    · simp [getPage, hi]
      omega
    · simp [getPage, hi]
      omega
  | release restore_fails hl =>
    by_cases hi : s.idle < cap
    · cases restore_fails <;> simp [returnPage, hi] <;> omega
    · simp [returnPage, hi]
      omega

/-- C5: with capacity = hosts × per-host factor, every pool state reachable by
acquire/release steps from a freshly initialized pool satisfies
`idle + leased ≤ capacity`; `_get_page` never blocks — it pops an idle page
when one is queued and otherwise creates a fresh one; `_return_page` enqueues
the restored page only below capacity, destroys it at capacity, and destroys
it whenever restoration fails. -/
theorem C5_pool_invariant :
    (∀ (browser_count max_concurrent : Nat) (s0 s : PoolState),
        s0.leased = 0 → s0.idle ≤ totalSlots browser_count max_concurrent →
        Relation.ReflTransGen (PoolStep (totalSlots browser_count max_concurrent)) s0 s →
        s.idle + s.leased ≤ totalSlots browser_count max_concurrent) ∧
    (∀ s : PoolState, 0 < s.idle →
        getPage s = (⟨s.idle - 1, s.leased + 1⟩, true)) ∧
    (∀ s : PoolState, s.idle = 0 →
        getPage s = (⟨0, s.leased + 1⟩, false)) ∧
    (∀ (cap : Nat) (s : PoolState) (restore_fails : Bool), cap ≤ s.idle →
        returnPage cap s restore_fails = ⟨s.idle, s.leased - 1⟩) ∧
    (∀ (cap : Nat) (s : PoolState), s.idle < cap →
        returnPage cap s true = ⟨s.idle, s.leased - 1⟩) ∧
    (∀ (cap : Nat) (s : PoolState), s.idle < cap →
        returnPage cap s false = ⟨s.idle + 1, s.leased - 1⟩) := by
  refine ⟨?_, ?_, ?_, ?_, ?_, ?_⟩
  · intro browser_count max_concurrent s0 s h0 hidle h
    induction h with
    | refl => omega
    | tail _ step ih => exact poolStep_preserves _ _ _ step ih
  · intro s hi
    simp [getPage, hi]
  · intro s hi
    simp [getPage, hi]
  · intro cap s restore_fails hge
    have : ¬ s.idle < cap := by omega
    simp [returnPage, this]
  · intro cap s hlt
    simp [returnPage, hlt]
  · intro cap s hlt
    simp [returnPage, hlt]

/-- C5 witness: capacity 6 (2 hosts × 3), starting from a fully warmed pool;
after an acquire, a create-on-empty acquire is impossible here but a release
at capacity destroys — the concrete chain acquire–release keeps
`idle + leased ≤ 6`. -/
theorem C5_pool_invariant_witness :
    (⟨6, 0⟩ : PoolState).idle + (⟨6, 0⟩ : PoolState).leased ≤ totalSlots 2 3 ∧
    (⟨5, 1⟩ : PoolState).idle + (⟨5, 1⟩ : PoolState).leased ≤ totalSlots 2 3 := by
  constructor
  · exact C5_pool_invariant.1 2 3 ⟨6, 0⟩ ⟨6, 0⟩ rfl (by decide) Relation.ReflTransGen.refl
  · exact C5_pool_invariant.1 2 3 ⟨6, 0⟩ ⟨5, 1⟩ rfl (by decide)
      (Relation.ReflTransGen.single (PoolStep.acquire ⟨6, 0⟩ (by decide)))

/-- The `/validate` interception either falls through or returns the
`PIN_EXPIRED` early failure. -/
theorem stepValidate_shape (w : World) (pin : String) :
    stepValidate w pin = none ∨
    ∃ msg, stepValidate w pin = some (RedeemResult.fail pin .pin_expired msg true) := by
  unfold stepValidate
  repeat' split
  all_goals first
    | exact Or.inl rfl
    | exact Or.inr ⟨_, rfl⟩

/-- Every terminal value of the state-machine body is an escaping exception, a
`RedeemResult.fail` for this pin, or the success shape of lines 407-410 and
423-426 — built with empty error fields and the run's product name and clock. -/
theorem doRedeemBody_shape (w : World) (pin : String) :
    (∃ e, doRedeemBody w pin = .error e) ∨
    (∃ er msg rp pn, doRedeemBody w pin = .ok (RedeemResult.fail pin er msg rp pn)) ∨
    (∃ nick, doRedeemBody w pin = .ok (RedeemResult.make true pin .none ""
        (stepProduct w) nick (parse_diamonds (stepProduct w)) false w.now)) := by
  rcases stepValidate_shape w pin with hv | ⟨msg, hv⟩
  · unfold doRedeemBody
    rw [hv]
    unfold stepPinVisible classifyCardFlip classifyResult
    dsimp only
    repeat' split
    all_goals first
      | exact Or.inl ⟨_, rfl⟩
      | exact Or.inr (Or.inl ⟨_, _, _, _, rfl⟩)
      | exact Or.inr (Or.inr ⟨_, rfl⟩)
  · unfold doRedeemBody
    rw [hv]
    unfold stepPinVisible
    dsimp only
    repeat' split
    all_goals first
      | exact Or.inl ⟨_, rfl⟩
      | exact Or.inr (Or.inl ⟨_, _, _, _, rfl⟩)

/-- C9: every outcome of `redeem_pin` satisfies — success implies errorKind
NONE, empty error message, returnPin false, and a non-empty redeemedAt stamp
(given a clock that renders a non-empty ISO timestamp); failure implies an
empty redeemedAt. -/
theorem C9_outcome_invariants :
    ∀ (w : World) (pin : String) (d : Nat), w.now ≠ "" →
      ((redeem_pin w pin d).success = true →
        (redeem_pin w pin d).error = ErrorType.none ∧
        (redeem_pin w pin d).error_message = "" ∧
        (redeem_pin w pin d).return_pin = false ∧
        (redeem_pin w pin d).redeemed_at ≠ "") ∧
      ((redeem_pin w pin d).success = false →
        (redeem_pin w pin d).redeemed_at = "") := by
  intro w pin d hnow
  rcases doRedeemBody_shape w pin with ⟨e, h⟩ | ⟨er, msg, rp, pn, h⟩ | ⟨nick, h⟩
  · simp only [redeem_pin, do_redeem, h]
    split <;> simp [RedeemResult.fail, RedeemResult.make]
  · simp [redeem_pin, do_redeem, h, RedeemResult.fail, RedeemResult.make]
  · simp [redeem_pin, do_redeem, h, RedeemResult.make, hnow]

/-- C9 witness: a fully successful concrete run — the success outcome carries
errorKind NONE, empty message, returnPin false and the clock's stamp. -/
theorem C9_outcome_invariants_witness :
    ((redeem_pin baseWorld "PIN-W" 3).success = true →
      (redeem_pin baseWorld "PIN-W" 3).error = ErrorType.none ∧
      (redeem_pin baseWorld "PIN-W" 3).error_message = "" ∧
      (redeem_pin baseWorld "PIN-W" 3).return_pin = false ∧
      (redeem_pin baseWorld "PIN-W" 3).redeemed_at ≠ "") ∧
    ((redeem_pin baseWorld "PIN-W" 3).success = false →
      (redeem_pin baseWorld "PIN-W" 3).redeemed_at = "") :=
  C9_outcome_invariants baseWorld "PIN-W" 3 (by decide)

/-- C10: every failed outcome of `redeem_pin` has an empty nickname, including
failure paths reached after account verification already extracted one. -/
theorem C10_failed_outcome_empty_nickname :
    ∀ (w : World) (pin : String) (d : Nat),
      (redeem_pin w pin d).success = false →
      (redeem_pin w pin d).nickname = "" := by
  intro w pin d hf
  rcases doRedeemBody_shape w pin with ⟨e, h⟩ | ⟨er, msg, rp, pn, h⟩ | ⟨nick, h⟩
  · simp only [redeem_pin, do_redeem, h]
    split <;> simp [RedeemResult.fail, RedeemResult.make]
  · simp [redeem_pin, do_redeem, h, RedeemResult.fail, RedeemResult.make]
  · simp [redeem_pin, do_redeem, h, RedeemResult.make] at hf

/-- C10 witness: the redeem button never appears after verification already
extracted the nickname "Jugador" — the `PAGE_ERROR` outcome still reports an
empty nickname. -/
theorem C10_failed_outcome_witness :
    (redeem_pin { baseWorld with waitRedeemBtn := .error "elemento no visible" }
      "PIN-X" 2).nickname = "" :=
  C10_failed_outcome_empty_nickname
    { baseWorld with waitRedeemBtn := .error "elemento no visible" } "PIN-X" 2 rfl

end HypeAuto
